import Mathlib

/-!
Shallow embedding of the roster engine of `src/domain.rs` (tutor-mgr).

Conventions:
* `chrono::NaiveDate` is modelled as its day number (days since 1970-01-01 in
  the proleptic Gregorian calendar, the calendar `chrono` implements); date
  comparison, date + days and `signed_duration_since` become `Int` operations.
* `DateTime<Local>` session timestamps are modelled by their calendar date
  (`SessionDate`), the only part the engine reads (`dt.month()`, `dt.year()`,
  `dt.naive_local().date()`).
* `f32` monetary values are modelled as `Rat`.
* Source operations that can panic (`unwrap`/`expect` on `None`, indexing out
  of bounds) return `Option`, with `none` marking the panic.
* `Local::now()` is modelled as an explicit parameter (the current date,
  respectively the current month and year), since the source reads the live
  clock at those points.
-/

namespace TutorMgr

/-- chrono `Weekday`. -/
inductive Weekday
  | mon
  | tue
  | wed
  | thu
  | fri
  | sat
  | sun
deriving DecidableEq, Repr

/-- Gregorian leap-year rule used by chrono's calendar. -/
def isLeapYear (y : Int) : Bool :=
  y % 4 == 0 && (y % 100 != 0 || y % 400 == 0)

/-- Day number (days since 1970-01-01) of the proleptic Gregorian date
`y-m-d`; the standard civil-from-days correspondence underlying
`chrono::NaiveDate`. Defined for all inputs; the engine only applies it to
month numbers produced by `dt.month()` (1..=12), where `from_ymd_opt`
succeeds. -/
def daysFromCivil (y : Int) (m : Nat) (d : Nat) : Int :=
  let yadj : Int := if m ≤ 2 then y - 1 else y
  let era : Int := yadj / 400
  let yoe : Int := yadj - era * 400
  let mp : Nat := (m + 9) % 12
  let doy : Int := ((153 * mp + 2) / 5 : Nat) + (d : Int) - 1
  let doe : Int := yoe * 365 + yoe / 4 - yoe / 100 + doy
  era * 146097 + doe - 719468

/-- Number of days of month `m` of year `y` in the Gregorian calendar. -/
def daysInMonth (y : Int) (m : Nat) : Nat :=
  if m = 2 then (if isLeapYear y then 29 else 28)
  else if m = 4 ∨ m = 6 ∨ m = 9 ∨ m = 11 then 30 else 31

/-- chrono `NaiveDate::weekday`, on day numbers: day 0 (1970-01-01) is a
Thursday. -/
def weekdayOfDays (n : Int) : Weekday :=
  match ((n + 3) % 7).toNat with
  | 0 => Weekday.mon
  | 1 => Weekday.tue
  | 2 => Weekday.wed
  | 3 => Weekday.thu
  | 4 => Weekday.fri
  | 5 => Weekday.sat
  | _ => Weekday.sun

/-- The calendar date of a logged session timestamp (`DateTime<Local>`). -/
structure SessionDate where
  year : Int
  month : Nat
  day : Nat
deriving DecidableEq, Repr

/-- `dt.naive_local().date()` as a day number. -/
def SessionDate.toDays (s : SessionDate) : Int :=
  daysFromCivil s.year s.month s.day

structure PersonalName where
  first : String
  last : String
  other : Option String
deriving DecidableEq, Repr

/-- One entry of a student's weekly schedule (`SessionData`). -/
structure SessionData where
  day : Weekday
  time : String
deriving DecidableEq, Repr

inductive TutorSubject
  | additionalMathematics
  | extendedMathematics
  | statistics
deriving DecidableEq, Repr

inductive PaymentType
  | perSession
  | monthly
deriving DecidableEq, Repr

structure PaymentData where
  payment_type : PaymentType
  amount : Rat
deriving DecidableEq, Repr

structure Student where
  id : String
  name : PersonalName
  subject : TutorSubject
  tabled_sessions : List SessionData
  actual_sessions : List SessionDate
  payment_data : PaymentData
  tution_start_date : SessionDate
deriving DecidableEq, Repr

structure Tutor where
  id : String
  name : PersonalName
deriving DecidableEq, Repr

structure Domain where
  tutor : Tutor
  students : List Student
deriving Repr

/-- `NaiveDate::format("%b")` on the first of month `m` (the only dates the
engine formats). -/
def month_abbrev (m : Nat) : String :=
  if m = 1 then "Jan"
  else if m = 2 then "Feb"
  else if m = 3 then "Mar"
  else if m = 4 then "Apr"
  else if m = 5 then "May"
  else if m = 6 then "Jun"
  else if m = 7 then "Jul"
  else if m = 8 then "Aug"
  else if m = 9 then "Sep"
  else if m = 10 then "Oct"
  else if m = 11 then "Nov"
  else "Dec"

/-- `get_month_date_range`: first and last date of the month, as day numbers
(the source's two `let` bindings inlined). -/
def get_month_date_range (year : Int) (month : Nat) : Int × Int :=
  (daysFromCivil year month 1,
    (if month = 12 then daysFromCivil (year + 1) 1 1
     else daysFromCivil year (month + 1) 1) - 1)

/-- `get_all_dates_in_month`: `(0..=duration.num_days()).map(|i| month_start +
Duration::days(i))` where `duration = month_end - month_start`. -/
def get_all_dates_in_month (year : Int) (month : Nat) : List Int :=
  (List.range
      (((get_month_date_range year month).2 - (get_month_date_range year month).1).toNat + 1)).map
    (fun (i : Nat) => (get_month_date_range year month).1 + (i : Int))

/-- `get_scheduled_weekdays`. -/
def get_scheduled_weekdays (student : Student) : List Weekday :=
  student.tabled_sessions.map (fun session => session.day)

/-- `compute_monthly_scheduled_sessions`. -/
def compute_monthly_scheduled_sessions (student : Student) (month : Nat) (year : Int) : Int :=
  ((get_all_dates_in_month year month).filter
    (fun date => decide (weekdayOfDays date ∈ get_scheduled_weekdays student))).length

/-- The intermediate `actual_session_dates` of
`compute_monthly_completed_sessions`: logged session dates falling within
`[month_start, month_end]`. -/
def actual_dates_in_month (student : Student) (month : Nat) (year : Int) : List Int :=
  (student.actual_sessions.map SessionDate.toDays).filter
    (fun date =>
      decide ((get_month_date_range year month).1 ≤ date ∧
        date ≤ (get_month_date_range year month).2))

/-- `compute_monthly_completed_sessions`. -/
def compute_monthly_completed_sessions (student : Student) (month : Nat) (year : Int) : Int :=
  ((actual_dates_in_month student month year).filter
    (fun date => decide (weekdayOfDays date ∈ get_scheduled_weekdays student))).length

/-- `compute_monthly_sum`. -/
def compute_monthly_sum (student : Student) (month : Nat) (year : Int)
    (compute_sessions_fn : Student → Nat → Int → Int) : Rat :=
  match student.payment_data.payment_type with
  | PaymentType.perSession =>
      student.payment_data.amount * ((compute_sessions_fn student month year : Int) : Rat)
  | PaymentType.monthly => student.payment_data.amount

/-- `get_next_session`, with the source's `Local::now().naive_local().date()`
made an explicit `today` parameter. `none` models the panic of
`.min().unwrap()` on an empty candidate list. -/
def get_next_session (student : Student) (today : Int) : Option Int :=
  let tabled_next_days : List Weekday := student.tabled_sessions.map (fun session => session.day)
  let next_seven_dates : List Int := (List.range 7).map (fun (i : Nat) => today + ((i : Int) + 1))
  (next_seven_dates.filter (fun date => decide (weekdayOfDays date ∈ tabled_next_days))).min?

inductive TrendDirection
  | up
  | down
deriving DecidableEq, Repr

inductive NumberTrend
  | noData
  | trend (trend_direction : TrendDirection) (percentage_change : Rat)
deriving DecidableEq, Repr

/-- `compute_trend`. -/
def compute_trend (previous current : Rat) : NumberTrend :=
  if previous = 0 then NumberTrend.noData
  else
    NumberTrend.trend
      (if current ≥ previous then TrendDirection.up else TrendDirection.down)
      |(current - previous) / previous * 100|

/-- The distinct `(month, year)` keys among a student's logged sessions. The
source collects them into a `HashSet` whose iteration order is arbitrary;
only the underlying set reaches the `BTreeMap`, so any duplicate-free
enumeration is faithful. -/
def student_months (student : Student) : List (Nat × Int) :=
  (student.actual_sessions.map (fun dt => (dt.month, dt.year))).dedup

/-- Ordering of the `BTreeMap<(u32, i32), _>` keys: lexicographic with the
month component first. -/
def keyLe (a b : Nat × Int) : Prop :=
  a.1 < b.1 ∨ (a.1 = b.1 ∧ a.2 ≤ b.2)

instance : DecidableRel keyLe := fun a b => by
  unfold keyLe
  infer_instance

instance : IsTotal (Nat × Int) keyLe :=
  ⟨by
    intro a b
    unfold keyLe
    omega⟩

instance : IsTrans (Nat × Int) keyLe :=
  ⟨by
    intro a b c
    unfold keyLe
    omega⟩

/-- The ascending key sequence of the source's `BTreeMap` grouping. -/
def sorted_month_keys (students : List Student) : List (Nat × Int) :=
  List.insertionSort keyLe ((students.flatMap student_months).dedup)

/-- `students_grouped_by_month` (the grouping loop shared by
`compute_income_data` and `compute_attendance_data`), as the `BTreeMap`'s
ascending (key, value) sequence. The value at key `k` lists, in roster order,
the students with at least one logged session in month `k` — exactly the
vector built by the source's `entry(..).or_default().push(student)` calls. -/
def students_grouped_by_month (students : List Student) : List ((Nat × Int) × List Student) :=
  (sorted_month_keys students).map
    (fun k => (k, students.filter (fun s => decide (k ∈ student_months s))))

structure IncomeData where
  potential : Rat
  actual : Rat
  month_year : String × Int
deriving DecidableEq, Repr

structure Attendance where
  month : String
  attended_days : Int
deriving DecidableEq, Repr

/-- `Domain::compute_income_data` (its debug `println!` has no effect on the
returned value and is dropped). -/
def compute_income_data (d : Domain) : List IncomeData :=
  (students_grouped_by_month d.students).map
    (fun g =>
      { actual :=
          (g.2.map (fun s => compute_monthly_sum s g.1.1 g.1.2 compute_monthly_completed_sessions)).sum,
        potential :=
          (g.2.map (fun s => compute_monthly_sum s g.1.1 g.1.2 compute_monthly_scheduled_sessions)).sum,
        month_year := (month_abbrev g.1.1, g.1.2) })

/-- `Domain::compute_attendance_data`. The source's
`stds.iter().fold(0, |acc, &std| std.actual_sessions.len())` ignores its
accumulator, which the embedding reproduces verbatim. -/
def compute_attendance_data (d : Domain) : List Attendance :=
  (students_grouped_by_month d.students).map
    (fun g =>
      { attended_days := (g.2.foldl (fun _acc s => s.actual_sessions.length) 0 : Int),
        month := month_abbrev g.1.1 })

/-- `Domain::get_actual_income_trend_direction`, with the source's
`Local::now()` month and year made explicit parameters. `none` models the two
panicking index expressions: `income_data[0]` on an empty series and
`rel_income_data[0]` / `rel_income_data[1]` when fewer than two entries match
the two lookup keys. The source's `month_year_ctr` closure is inlined. -/
def get_actual_income_trend_direction (d : Domain) (current_month : Nat)
    (current_year : Int) : Option NumberTrend :=
  let income_data := compute_income_data d
  if income_data.length < 2 then
    match income_data with
    | [] => none
    | data0 :: _ => some (compute_trend 0 data0.actual)
  else
    let prev_month : Nat := if current_month = 1 then 12 else current_month - 1
    let prev_year : Int := current_year - 1
    let prev_month_year : String × Int := (month_abbrev prev_month, prev_year)
    let current_month_year : String × Int := (month_abbrev current_month, current_year)
    let rel_income_data := income_data.filter
      (fun data =>
        decide (data.month_year = prev_month_year ∨ data.month_year = current_month_year))
    match rel_income_data with
    | data0 :: data1 :: _ => some (compute_trend data0.actual data1.actual)
    | _ => none

/-- Strict version of the `BTreeMap` key order (month first). -/
def keyLt (a b : Nat × Int) : Prop :=
  a.1 < b.1 ∨ (a.1 = b.1 ∧ a.2 < b.2)

instance : DecidableRel keyLt := fun a b => by
  unfold keyLt
  infer_instance

/-- Chronological order on `(month, year)` keys: lexicographic with the year
component first — the order the spec asserts for the income series. -/
def yearMonthLt (a b : Nat × Int) : Prop :=
  a.2 < b.2 ∨ (a.2 = b.2 ∧ a.1 < b.1)

instance : DecidableRel yearMonthLt := fun a b => by
  unfold yearMonthLt
  infer_instance

/-- The `(month, year)` key of each `compute_income_data` entry, in output
order (the entries are produced by mapping over the grouping). -/
def income_entry_keys (d : Domain) : List (Nat × Int) :=
  sorted_month_keys d.students

/-- First mock student of `mock_student_data`. -/
def mock_student1 : Student :=
  { id := "student1",
    name := { first := "Mary", last := "Jane", other := none },
    subject := TutorSubject.additionalMathematics,
    tabled_sessions := [⟨Weekday.tue, "5:30 PM"⟩, ⟨Weekday.thu, "5:30 PM"⟩],
    actual_sessions := [⟨2025, 11, 4⟩, ⟨2025, 11, 6⟩],
    payment_data := ⟨PaymentType.perSession, 150⟩,
    tution_start_date := ⟨2025, 11, 1⟩ }

/-- Second mock student of `mock_student_data`. -/
def mock_student2 : Student :=
  { id := "student2",
    name := { first := "Peter", last := "Parker", other := none },
    subject := TutorSubject.extendedMathematics,
    tabled_sessions := [⟨Weekday.wed, "4:00 PM"⟩, ⟨Weekday.sat, "1:30 PM"⟩],
    actual_sessions := [⟨2025, 11, 5⟩, ⟨2025, 11, 8⟩, ⟨2025, 11, 22⟩],
    payment_data := ⟨PaymentType.perSession, 150⟩,
    tution_start_date := ⟨2025, 11, 1⟩ }

/-- `mock_domain` from the source. -/
def mock_domain : Domain :=
  { tutor := { id := "tutor1", name := { first := "Andy", last := "Murray", other := none } },
    students := [mock_student1, mock_student2] }

/-- A student with one logged session in December 2024 and one in January
2025 (exercises the year boundary of the grouping order). -/
def c4_student : Student :=
  { id := "s1",
    name := { first := "Ada", last := "Byron", other := none },
    subject := TutorSubject.statistics,
    tabled_sessions := [⟨Weekday.tue, "5:30 PM"⟩],
    actual_sessions := [⟨2024, 12, 10⟩, ⟨2025, 1, 10⟩],
    payment_data := ⟨PaymentType.monthly, 200⟩,
    tution_start_date := ⟨2024, 12, 1⟩ }

def c4_domain : Domain :=
  { tutor := { id := "t", name := { first := "Ada", last := "Byron", other := none } },
    students := [c4_student] }

/-- A student with an empty weekly schedule and logged sessions in two
different months (January 2022 and February 2023). -/
def c9_student : Student :=
  { id := "s2",
    name := { first := "Cleo", last := "Doe", other := none },
    subject := TutorSubject.statistics,
    tabled_sessions := [],
    actual_sessions := [⟨2022, 1, 10⟩, ⟨2023, 2, 10⟩],
    payment_data := ⟨PaymentType.monthly, 200⟩,
    tution_start_date := ⟨2022, 1, 1⟩ }

def c9_domain : Domain :=
  { tutor := { id := "t", name := { first := "Cleo", last := "Doe", other := none } },
    students := [c9_student] }

/-- A roster with no students: its income series is empty. -/
def empty_domain : Domain :=
  { tutor := { id := "t", name := { first := "Eve", last := "Noone", other := none } },
    students := [] }

theorem daysInMonth_pos (y : Int) (m : Nat) : 1 ≤ daysInMonth y m := by
  unfold daysInMonth
  split_ifs <;> omega

/-- The day-number distance from the first of a month to the first of the
next month is the month's length. -/
theorem month_end_sub_start (y : Int) (m : Nat) (h1 : 1 ≤ m) (h2 : m ≤ 12) :
    (get_month_date_range y m).2 - (get_month_date_range y m).1 + 1 = (daysInMonth y m : Int) := by
  rcases Bool.eq_false_or_eq_true (isLeapYear y) with hl | hl <;>
  · interval_cases m <;>
    · simp only [get_month_date_range, daysFromCivil, daysInMonth, hl, Bool.false_eq_true,
        if_true, if_false]
      simp only [isLeapYear, Bool.and_eq_true, beq_iff_eq, Bool.or_eq_true, bne_iff_ne,
        Bool.and_eq_false_iff, Bool.or_eq_false_iff, bne_eq_false_iff_eq, beq_eq_false_iff_ne,
        ne_eq] at hl
      norm_num
      omega

theorem daysFromCivil_day (y : Int) (m : Nat) (d : Nat) (hd : 1 ≤ d) :
    daysFromCivil y m d = daysFromCivil y m 1 + ((d - 1 : Nat) : Int) := by
  simp only [daysFromCivil]
  omega

theorem get_month_date_range_spec (y : Int) (m : Nat) (h1 : 1 ≤ m) (h2 : m ≤ 12) :
    get_month_date_range y m =
      (daysFromCivil y m 1, daysFromCivil y m 1 + (daysInMonth y m : Int) - 1) := by
  have h := month_end_sub_start y m h1 h2
  have h0 : (get_month_date_range y m).1 = daysFromCivil y m 1 := rfl
  rw [Prod.ext_iff]
  refine ⟨h0, ?_⟩
  omega

theorem get_all_dates_in_month_spec (y : Int) (m : Nat) (h1 : 1 ≤ m) (h2 : m ≤ 12) :
    get_all_dates_in_month y m =
      (List.range (daysInMonth y m)).map (fun (i : Nat) => daysFromCivil y m 1 + (i : Int)) := by
  have h := month_end_sub_start y m h1 h2
  have hpos := daysInMonth_pos y m
  have h0 : (get_month_date_range y m).1 = daysFromCivil y m 1 := rfl
  unfold get_all_dates_in_month
  have hn : ((get_month_date_range y m).2 - (get_month_date_range y m).1).toNat + 1 =
      daysInMonth y m := by omega
  rw [hn, h0]

theorem keyLe_ne_lt {a b : Nat × Int} (h : keyLe a b ∧ a ≠ b) : keyLt a b := by
  rcases a with ⟨a1, a2⟩
  rcases b with ⟨b1, b2⟩
  rcases h with ⟨hle, hne⟩
  simp only [keyLe] at hle
  simp only [ne_eq, Prod.mk.injEq, not_and] at hne
  simp only [keyLt]
  omega

theorem sorted_month_keys_pairwise (students : List Student) :
    List.Pairwise keyLt (sorted_month_keys students) := by
  have hs : List.Sorted keyLe (sorted_month_keys students) :=
    List.sorted_insertionSort keyLe _
  have hperm := List.perm_insertionSort keyLe ((students.flatMap student_months).dedup)
  have hnodup : (sorted_month_keys students).Nodup :=
    hperm.symm.nodup (List.nodup_dedup _)
  exact (hs.and hnodup).imp keyLe_ne_lt

theorem mem_sorted_month_keys (students : List Student) (k : Nat × Int) :
    k ∈ sorted_month_keys students ↔
      ∃ s ∈ students, ∃ dt ∈ s.actual_sessions, (dt.month, dt.year) = k := by
  unfold sorted_month_keys
  rw [(List.perm_insertionSort keyLe _).mem_iff, List.mem_dedup, List.mem_flatMap]
  simp [student_months]

theorem compute_income_data_labels (d : Domain) :
    (compute_income_data d).map IncomeData.month_year =
      (income_entry_keys d).map (fun k => (month_abbrev k.1, k.2)) := by
  unfold compute_income_data students_grouped_by_month income_entry_keys
  simp only [List.map_map]
  rfl

/-- Claim C1: at the mock roster, the code's attendance figure for November
2025 is 3 (the last grouped student's lifetime session count, since the fold
ignores its accumulator), while the claimed value — the sum over the month's
students of their session counts within that month — is 2 + 3 = 5. -/
theorem C1_attendance_fold_bug :
    (compute_attendance_data mock_domain).map Attendance.attended_days = [3] ∧
    (mock_domain.students.map
      (fun s => ((s.actual_sessions.filter
        (fun dt => decide (dt.month = 11 ∧ dt.year = 2025))).length : Int))).sum = 5 := by
  decide

/-- Claim C2: the trend computation, far from returning NoData, hits the
source's panicking index expressions (modelled by `none`) both on a roster
with an empty income series and on a roster where neither lookup key is
present in the series. -/
theorem C2_trend_panics_instead_of_nodata :
    get_actual_income_trend_direction empty_domain 11 2025 = none ∧
    get_actual_income_trend_direction c9_domain 11 2025 = none := by
  decide

/-- Claim C3: for every student with an empty weekly schedule,
`get_next_session` reaches `.min().unwrap()` on an empty candidate list
(modelled by `none`): the source panics instead of returning the explicit
NoUpcomingSession outcome the claim requires. -/
theorem C3_empty_schedule_panics (student : Student)
    (h : student.tabled_sessions = []) (today : Int) :
    get_next_session student today = none := by
  simp [get_next_session, h]

theorem C3_empty_schedule_panics_witness :
    get_next_session c9_student (daysFromCivil 2025 11 3) = none :=
  C3_empty_schedule_panics c9_student rfl (daysFromCivil 2025 11 3)

/-- Claim C4, counterexample: on a roster with one session in December 2024
and one in January 2025, the income series lists January 2025 before December
2024 — the `BTreeMap` key `(u32 month, i32 year)` orders month first — so the
output is not ascending in (year, month). -/
theorem C4_counterexample :
    (compute_income_data c4_domain).map IncomeData.month_year =
      [("Jan", 2025), ("Dec", 2024)] ∧
    income_entry_keys c4_domain = [(1, 2025), (12, 2024)] ∧
    yearMonthLt (12, 2024) (1, 2025) ∧
    ¬ List.Pairwise (fun a b => ¬ yearMonthLt b a) (income_entry_keys c4_domain) := by
  refine ⟨by decide, by decide, by decide, ?_⟩
  intro hpw
  have he : income_entry_keys c4_domain = [(1, 2025), (12, 2024)] := by decide
  rw [he, List.pairwise_cons] at hpw
  exact hpw.1 (12, 2024) (by simp) (by decide)

/-- Claim C4, amended: the income series is sorted strictly ascending by
(month, year) — lexicographically with the month component first — and its
labels are the short month name and year of those keys in that order. -/
theorem C4_income_sorted_month_first (d : Domain) :
    List.Pairwise keyLt (income_entry_keys d) ∧
    (compute_income_data d).map IncomeData.month_year =
      (income_entry_keys d).map (fun k => (month_abbrev k.1, k.2)) :=
  ⟨sorted_month_keys_pairwise d.students, compute_income_data_labels d⟩

/-- Claim C5, counterexample: at previous = -100, current = 0 the code yields
percentage change 100 (the absolute value is applied to the whole quotient),
while the claim's formula |current - previous| / previous * 100 yields -100. -/
theorem C5_counterexample :
    compute_trend (-100) 0 = NumberTrend.trend TrendDirection.up 100 ∧
    |(0 : Rat) - (-100)| / (-100) * 100 = -100 ∧
    compute_trend (-100) 0 ≠
      NumberTrend.trend TrendDirection.up (|(0 : Rat) - (-100)| / (-100) * 100) := by
  have h1 : compute_trend (-100) 0 = NumberTrend.trend TrendDirection.up 100 := by
    rw [compute_trend, if_neg (by norm_num : ¬((-100 : Rat) = 0)),
      if_pos (by norm_num : (0 : Rat) ≥ -100)]
    norm_num
  have h2 : |(0 : Rat) - (-100)| / (-100) * 100 = -100 := by norm_num
  refine ⟨h1, h2, ?_⟩
  rw [h1, h2]
  simp only [ne_eq, NumberTrend.trend.injEq, not_and]
  intro _
  norm_num

/-- Claim C5, amended: compute_trend previous current returns NoData when
previous = 0, and otherwise a Trend whose percentage change is
|(current - previous) / previous| * 100 (the absolute value taken of the whole
quotient) with direction Up iff current ≥ previous; in particular
compute_trend 0 X = NoData for any X, compute_trend 100 150 = Trend(Up, 50)
and compute_trend 150 100 = Trend(Down, 100/3). -/
theorem C5_compute_trend_spec (previous current X : Rat) :
    compute_trend 0 X = NumberTrend.noData ∧
    (previous ≠ 0 →
      compute_trend previous current =
        NumberTrend.trend
          (if current ≥ previous then TrendDirection.up else TrendDirection.down)
          (|(current - previous) / previous| * 100)) ∧
    compute_trend 100 150 = NumberTrend.trend TrendDirection.up 50 ∧
    compute_trend 150 100 = NumberTrend.trend TrendDirection.down (100 / 3) := by
  have hgen : ∀ p c : Rat, p ≠ 0 →
      compute_trend p c =
        NumberTrend.trend (if c ≥ p then TrendDirection.up else TrendDirection.down)
          (|(c - p) / p| * 100) := by
    intro p c h
    rw [compute_trend, if_neg h]
    congr 1
    rw [abs_mul]
    norm_num
  refine ⟨by rw [compute_trend, if_pos rfl], hgen previous current, ?_, ?_⟩
  · rw [hgen 100 150 (by norm_num), if_pos (by norm_num : (150 : Rat) ≥ 100)]
    norm_num [abs_of_nonneg]
  · rw [hgen 150 100 (by norm_num), if_neg (by norm_num : ¬((100 : Rat) ≥ 150))]
    norm_num [abs_of_nonneg]

theorem C5_compute_trend_spec_witness :
    compute_trend 2 1 =
      NumberTrend.trend
        (if (1 : Rat) ≥ 2 then TrendDirection.up else TrendDirection.down)
        (|((1 : Rat) - 2) / 2| * 100) :=
  (C5_compute_trend_spec 2 1 0).2.1 (by norm_num)

/-- Claim C6: compute_monthly_completed_sessions counts exactly the logged
sessions whose date lies in [month start, month end] and whose weekday is
scheduled; it is at most the number of logged sessions in the month, with
equality iff every such session falls on a scheduled weekday. -/
theorem C6_monthly_completed_sessions (student : Student) (month : Nat) (year : Int) :
    compute_monthly_completed_sessions student month year =
      ((((student.actual_sessions.map SessionDate.toDays).filter
          (fun date =>
            decide ((get_month_date_range year month).1 ≤ date ∧
              date ≤ (get_month_date_range year month).2))).filter
        (fun date => decide (weekdayOfDays date ∈ get_scheduled_weekdays student))).length : Int) ∧
    compute_monthly_completed_sessions student month year ≤
      ((actual_dates_in_month student month year).length : Int) ∧
    (compute_monthly_completed_sessions student month year =
        ((actual_dates_in_month student month year).length : Int) ↔
      ∀ date ∈ actual_dates_in_month student month year,
        weekdayOfDays date ∈ get_scheduled_weekdays student) := by
  refine ⟨rfl, ?_, ?_⟩
  · rw [compute_monthly_completed_sessions]
    exact_mod_cast List.length_filter_le _ _
  · rw [compute_monthly_completed_sessions, Nat.cast_inj, List.filter_length_eq_length]
    simp

/-- Claim C7: compute_monthly_sum pays amount × counter(student, month, year)
under PerSession, and under Monthly pays the flat amount for every injected
counter (independent of its value). -/
theorem C7_monthly_sum_spec (student : Student) (month : Nat) (year : Int)
    (counter : Student → Nat → Int → Int) :
    (student.payment_data.payment_type = PaymentType.perSession →
      compute_monthly_sum student month year counter =
        student.payment_data.amount * ((counter student month year : Int) : Rat)) ∧
    (student.payment_data.payment_type = PaymentType.monthly →
      ∀ counter2 : Student → Nat → Int → Int,
        compute_monthly_sum student month year counter2 = student.payment_data.amount) := by
  constructor
  · intro h
    simp [compute_monthly_sum, h]
  · intro h counter2
    simp [compute_monthly_sum, h]

theorem C7_monthly_sum_spec_witness :
    compute_monthly_sum mock_student1 11 2025 compute_monthly_completed_sessions =
      mock_student1.payment_data.amount *
        ((compute_monthly_completed_sessions mock_student1 11 2025 : Int) : Rat) :=
  (C7_monthly_sum_spec mock_student1 11 2025 compute_monthly_completed_sessions).1 rfl

/-- Claim C8: for months 1..12, get_all_dates_in_month lists exactly the
month's dates in order (its length is the month's day count, 29 for a leap
February), day d of the month is day number (first of month) + (d-1), and
get_month_date_range returns the month's first and last dates, December's end
being computed from January 1 of the following year. -/
theorem C8_month_calendar (y : Int) (m : Nat) (h1 : 1 ≤ m) (h2 : m ≤ 12) :
    get_all_dates_in_month y m =
      (List.range (daysInMonth y m)).map (fun (i : Nat) => daysFromCivil y m 1 + (i : Int)) ∧
    (get_all_dates_in_month y m).length = daysInMonth y m ∧
    (∀ d : Nat, 1 ≤ d → d ≤ daysInMonth y m →
      daysFromCivil y m d = daysFromCivil y m 1 + ((d - 1 : Nat) : Int)) ∧
    get_month_date_range y m =
      (daysFromCivil y m 1, daysFromCivil y m 1 + (daysInMonth y m : Int) - 1) ∧
    (m = 12 → (get_month_date_range y m).2 = daysFromCivil (y + 1) 1 1 - 1) := by
  refine ⟨get_all_dates_in_month_spec y m h1 h2, ?_, ?_, get_month_date_range_spec y m h1 h2, ?_⟩
  · rw [get_all_dates_in_month_spec y m h1 h2, List.length_map, List.length_range]
  · intro d hd1 hd2
    exact daysFromCivil_day y m d hd1
  · intro hm
    subst hm
    simp [get_month_date_range]

theorem C8_month_calendar_witness :
    (get_all_dates_in_month 2024 2).length = daysInMonth 2024 2 ∧ daysInMonth 2024 2 = 29 :=
  ⟨(C8_month_calendar 2024 2 (by decide) (by decide)).2.1, by decide⟩

/-- Claim C9: the source reads the live clock inside both computations, so
their results change with the wall-clock instant on a fixed snapshot: the
next session of mock student 1 differs between clock dates 2025-11-03 and
2025-11-05, and the income trend of a fixed roster differs between clock
months (2, 2023) and (11, 2025) — refuting determinism in the snapshot and a
caller-supplied reference date (a parameter the source does not have). -/
theorem C9_clock_dependence :
    get_next_session mock_student1 (daysFromCivil 2025 11 3) ≠
      get_next_session mock_student1 (daysFromCivil 2025 11 5) ∧
    get_actual_income_trend_direction c9_domain 2 2023 ≠
      get_actual_income_trend_direction c9_domain 11 2025 := by
  decide

/-- Claim C10: the income and attendance series are built from the same
grouping: equal lengths, identical month labels in identical order, and a
(month, year) key occurs iff some student logged a session in that month. -/
theorem C10_income_attendance_aligned (d : Domain) :
    (compute_income_data d).length = (compute_attendance_data d).length ∧
    (compute_attendance_data d).map Attendance.month =
      (compute_income_data d).map (fun e => e.month_year.1) ∧
    (∀ k : Nat × Int, k ∈ income_entry_keys d ↔
      ∃ s ∈ d.students, ∃ dt ∈ s.actual_sessions, (dt.month, dt.year) = k) := by
  refine ⟨?_, ?_, fun k => mem_sorted_month_keys d.students k⟩
  · simp [compute_income_data, compute_attendance_data]
  · unfold compute_attendance_data compute_income_data students_grouped_by_month
    simp only [List.map_map]
    rfl

end TutorMgr
